import Mathlib

set_option autoImplicit false

/-- Single-quote character, used to spell string literals from the source
without writing a literal apostrophe. -/
def squote : Char := Char.ofNat 39

/-- Polymorphic association-list lookup, modelling both `cache.get(key)` and
`dict.get(key)`: `None` when the key is absent. -/
def alGet {α : Type} (l : List (String × α)) (k : String) : Option α :=
  (l.find? (fun p => p.1 == k)).map (fun p => p.2)

/-- Polymorphic association-list write, modelling `cache.set(key, v)` and tag
assignment: overwrites any previous value for the key. -/
def alSet {α : Type} (l : List (String × α)) (k : String) (v : α) : List (String × α) :=
  l.filter (fun p => p.1 != k) ++ [(k, v)]

/-- Values appearing in a normalized result mapping (a Python dict as produced
by `model_dump(by_alias=True)` or returned directly by `process_query_model`). -/
inductive JVal where
  | null
  | bool (b : Bool)
  | num (n : Int)
  | str (s : String)
  | list (xs : List JVal)
  | dict (kvs : List (String × JVal))

/-- Python truthiness for the values a result mapping can hold. -/
def truthy : JVal → Bool
  | .null => false
  | .bool b => b
  | .num n => n != 0
  | .str s => s != ""
  | .list xs => !xs.isEmpty
  | .dict kvs => !kvs.isEmpty

/-- Dict lookup `m.get(k)` on a result mapping. -/
def mget (m : List (String × JVal)) (k : String) : Option JVal :=
  alGet m k

/-- Lookup `.get(k)` on a value; the source only ever applies `.get` to
mapping-valued fields. -/
def jget : JVal → String → Option JVal
  | .dict kvs, k => mget kvs k
  | _, _ => Option.none

/-- Models the identity test `x is False` on the value stored under a key:
true only for the exact boolean `False` object. -/
def completeIsFalse : Option JVal → Bool
  | Option.some (JVal.bool false) => true
  | _ => false

/-- Exception classes that can cross the `run` boundary, with their `str`
rendering and the optional `code_name` / `message` attributes carried
explicitly. `other` stands for any exception of an unrecognized class. -/
inductive Exc where
  | exposedHogQLError (msg : String) (codeName : Option String)
  | exposedCHQueryError (msg : String) (codeName : Option String)
  | hogVMException (msg : String) (codeName : Option String)
  | resolutionError (msg : String)
  | concurrencyLimitExceeded (msg : String)
  | validationError (msg : String) (code : Option String)
  | throttled (detail : String)
  | other (strForm : String) (messageAttr : Option String)
deriving DecidableEq

/-- Models `getattr(error, "message", None)`: only exceptions of unrecognized
classes may expose a `message` attribute; the DRF `ValidationError` and
`Throttled` wrappers raised by `run` itself do not. -/
def Exc.messageAttr : Exc → Option String
  | .other _ m => m
  | _ => Option.none

/-- First literal of the regex in `handle_column_ch_error`. -/
def colPat1 : String := "There" ++ String.mk [squote] ++ "s no column"

/-- Second literal of the regex in `handle_column_ch_error`. -/
def colPat2 : String := "in table"

/-- Clarifying suffix appended to the matched text (line 109 of the source). -/
def betaSuffix : String := ". Note: While in beta, not all column types may be fully supported"

/-- Positions in `cs` at which `pat` occurs. -/
def patStarts (cs pat : List Char) : List Nat :=
  (List.range (cs.length + 1)).filter (fun i => pat.isPrefixOf (cs.drop i))

/-- Whether the slice `[a, b)` of `cs` holds no newline: `.` in the source
regex does not match a newline. -/
def noNewline (cs : List Char) (a b : Nat) : Bool :=
  ((cs.drop a).take (b - a)).all (fun c => c != Char.ofNat 10)

/-- End positions at which `p2` may close a match of the source regex whose
first literal starts at `i`: `p2` occurs there, after the first literal, with
no newline in the gap. -/
def validEnds (cs p1 p2 : List Char) (i : Nat) : List Nat :=
  (patStarts cs p2).filter (fun j => decide (i + p1.length ≤ j) && noNewline cs (i + p1.length) j)

/-- Models `re.search(r"There's no column.*in table", s)` returning
`match.group(0)`: the match starts at the leftmost feasible position and the
greedy `.*` extends it to the last feasible closing literal on that line. -/
def reSearchColumn (s : String) : Option String :=
  let cs := s.data
  let p1 := colPat1.data
  let p2 := colPat2.data
  match (patStarts cs p1).filter (fun i => !(validEnds cs p1 p2 i).isEmpty) with
  | [] => Option.none
  | i :: _ =>
    match (validEnds cs p1 p2 i).getLast? with
    | Option.none => Option.none
    | Option.some j => Option.some (String.mk ((cs.drop i).take (j + p2.length - i)))

/-- Embeds `handle_column_ch_error` (lines 103-111): when the error exposes a
truthy `message` attribute matching the column regex, returns the message of
the `ValidationError` it raises; otherwise falls through (`none`). -/
def handle_column_ch_error (e : Exc) : Option String :=
  match e.messageAttr with
  | Option.some m =>
    if m != "" then
      match reSearchColumn m with
      | Option.some g => Option.some (g ++ betaSuffix)
      | Option.none => Option.none
    else Option.none
  | Option.none => Option.none

/-- Observable ambient state of one request: query tags set via `tag_queries`,
exceptions reported via `capture_exception`, and how many times
`process_query_model` has been invoked. -/
structure Ctx where
  queryTags : List (String × String)
  captured : List Exc
  dispatched : Nat
deriving DecidableEq

/-- Embeds `_tag_client_query_id` (lines 113-117): returns unchanged state for
`None`, otherwise calls `tag_queries(client_query_id=query_id)`. -/
def tag_client_query_id (qid : Option String) (ctx : Ctx) : Ctx :=
  match qid with
  | Option.none => ctx
  | Option.some s => { ctx with queryTags := alSet ctx.queryTags "client_query_id" s }

/-- Result of `process_query_model`: a plain mapping, or a pydantic `BaseModel`
whose `model_dump(by_alias=True)` yields the carried mapping. -/
inductive PyResult where
  | mapping (m : List (String × JVal))
  | baseModel (dump : List (String × JVal))

/-- Lines 84-85 of the source: normalize the dispatch result to a mapping. -/
def normalizeResult : PyResult → List (String × JVal)
  | .mapping m => m
  | .baseModel d => d

/-- Outcome of `_process_query_request`: the resolved query itself is opaque;
only the correlation id and whether the resolved execution mode is a member
of `ASYNC_MODES` are observed by `run`. -/
structure ProcessedRequest where
  clientQueryId : Option String
  asyncMode : Bool
deriving DecidableEq

/-- Per-request inputs of `run`: whether `data.query` is a `HogQLQuery`, the
behaviour of the `_process_query_request` collaborator, and the behaviour of
the `process_query_model` dispatch (a result, or a raised exception). -/
structure RunInput where
  isHogQLQuery : Bool
  processRequest : Except Exc ProcessedRequest
  dispatch : Except Exc PyResult

/-- Lines 86-90 of the source: HTTP 202 when the mapping holds a truthy
`query_status` whose `complete` field `is False`, else HTTP 200. -/
def responseStatus (m : List (String × JVal)) : Nat :=
  match mget m "query_status" with
  | Option.some qs => if truthy qs && completeIsFalse (jget qs "complete") then 202 else 200
  | Option.none => 200

/-- Observable outcome of `run`: an HTTP response, or a raised exception as
seen by the framework layer above. -/
inductive Outcome where
  | response (body : List (String × JVal)) (httpStatus : Nat)
  | raised (e : Exc)

/-- Embeds the `try` block of `run` (lines 68-91): the successful body and
status, or the exception leaving the block, with the updated ambient state. -/
def runTry (inp : RunInput) (ctx : Ctx) : Except Exc (List (String × JVal) × Nat) × Ctx :=
  match inp.processRequest with
  | .error e => (.error e, ctx)
  | .ok pr =>
    let ctx1 := tag_client_query_id pr.clientQueryId ctx
    if pr.asyncMode then
      (.error (.validationError "only sync modes are supported (refresh param)" Option.none), ctx1)
    else
      let ctx2 : Ctx := { ctx1 with dispatched := ctx1.dispatched + 1 }
      match inp.dispatch with
      | .error e => (.error e, ctx2)
      | .ok r =>
        let m := normalizeResult r
        (.ok (m, responseStatus m), ctx2)

/-- Embeds the `except` clauses of `run` (lines 92-101), in source order; the
final clause runs `handle_column_ch_error`, then reports to
`capture_exception` and re-raises. -/
def handleExc (e : Exc) (ctx : Ctx) : Outcome × Ctx :=
  match e with
  | .exposedHogQLError msg code => (.raised (.validationError msg code), ctx)
  | .exposedCHQueryError msg code => (.raised (.validationError msg code), ctx)
  | .hogVMException msg code => (.raised (.validationError msg code), ctx)
  | .resolutionError msg => (.raised (.validationError msg Option.none), ctx)
  | .concurrencyLimitExceeded msg => (.raised (.throttled msg), ctx)
  | e =>
    match handle_column_ch_error e with
    | Option.some v => (.raised (.validationError v Option.none), ctx)
    | Option.none => (.raised e, { ctx with captured := ctx.captured ++ [e] })

/-- Embeds `run` (lines 61-101): the variant check precedes the `try` block,
so a wrong variant raises before any tagging or dispatch. -/
def run (inp : RunInput) (ctx : Ctx) : Outcome × Ctx :=
  if inp.isHogQLQuery then
    match runTry inp ctx with
    | (.ok (m, st), ctx1) => (.response m st, ctx1)
    | (.error e, ctx1) => handleExc e ctx1
  else
    (.raised (.validationError "This endpoint only supports HogQLQuery" Option.none), ctx)

/-- Feature name from `posthog.constants`. Modelled from the spec: the constant
`AvailableFeature.API_QUERIES_CONCURRENCY` lives outside the sources; only its
role as a fixed feature name is observable here. -/
def API_QUERIES_CONCURRENCY : String := "API_QUERIES_CONCURRENCY"

/-- A resolvable tenant (`self.team`): exposes
`organization.is_feature_available`. -/
structure Team where
  isFeatureAvailable : String → Bool

/-- Cache key of line 43. -/
def concurrencyCacheKey (teamId : Nat) : String :=
  "team/" ++ toString teamId ++ "/feature/" ++ API_QUERIES_CONCURRENCY

/-- Embeds `check_team_api_queries_concurrency` (lines 42-51): returns the
boolean, the cache after the call, and how many times the subscription
collaborator `is_feature_available` was consulted during the call. -/
def check_team_api_queries_concurrency (teamId : Nat) (team : Option Team)
    (c : List (String × Bool)) : Bool × List (String × Bool) × Nat :=
  let key := concurrencyCacheKey teamId
  match alGet c key with
  | Option.some v => (v, c, 0)
  | Option.none =>
    match team with
    | Option.some t =>
      let v := t.isFeatureAvailable API_QUERIES_CONCURRENCY
      (v, alSet c key v, 1)
    | Option.none => (false, c, 0)

/-- Ambient state in which every concrete witness starts: no tags, nothing
captured, no dispatches. -/
def ctx0 : Ctx := ⟨[], [], 0⟩

/-- A tenant whose organization has every feature available. -/
def teamYes : Team := ⟨fun _ => true⟩

/-- A processed request with no correlation id resolving to a sync mode. -/
def prSync : ProcessedRequest := ⟨Option.none, false⟩

/-- An engine message matching the column regex in full. -/
def colMsg : String := colPat1 ++ " foo " ++ colPat2

/-- A result mapping carrying an incomplete `query_status`. -/
def mIncomplete : List (String × JVal) :=
  [("query_status", JVal.dict [("complete", JVal.bool false)]), ("rows", JVal.list [])]

/-- Request whose dispatch fails with an unrecognized engine error exposing a
column-pattern `message`. -/
def inpC2 : RunInput :=
  ⟨true, Except.ok prSync, Except.error (Exc.other "boom" (Option.some colMsg))⟩

/-- Request whose dispatch returns an incomplete result. -/
def inpC3 : RunInput := ⟨true, Except.ok prSync, Except.ok (PyResult.mapping mIncomplete)⟩

/-- Request resolving to an asynchronous execution mode. -/
def inpC4 : RunInput := ⟨true, Except.ok ⟨Option.none, true⟩, Except.ok (PyResult.mapping [])⟩

/-- Request during which the concurrency limiter raises exhaustion. -/
def inpC5 : RunInput :=
  ⟨true, Except.ok prSync, Except.error (Exc.concurrencyLimitExceeded "team X exceeded limit")⟩

/-- Request during which the engine raises a semantic error with a code. -/
def inpC6 : RunInput :=
  ⟨true, Except.ok prSync, Except.error (Exc.exposedHogQLError "bad hogql" (Option.some "syntax"))⟩

/-- Request carrying the empty string as `client_query_id`. -/
def inpC7 : RunInput := ⟨true, Except.ok ⟨Option.some "", false⟩, Except.ok (PyResult.mapping [])⟩

/-- Request whose query is not a `HogQLQuery`. -/
def inpC8 : RunInput := ⟨false, Except.ok prSync, Except.ok (PyResult.mapping [])⟩

/-- Request failing with an exception whose string form matches the column
pattern but whose `message` attribute is absent. -/
def inpC9 : RunInput := ⟨true, Except.ok prSync, Except.error (Exc.other colMsg Option.none)⟩

/-- Request with a nonempty correlation id resolving to an asynchronous mode. -/
def inpC10 : RunInput :=
  ⟨true, Except.ok ⟨Option.some "abc123", true⟩, Except.ok (PyResult.mapping [])⟩

theorem alGet_alSet {α : Type} (l : List (String × α)) (k : String) (v : α) :
    alGet (alSet l k v) k = Option.some v := by
  induction l with
  | nil => simp [alGet, alSet]
  | cons p t ih =>
    by_cases h : p.1 = k
    · simp [alGet, alSet, List.filter_cons, h]
    · simp [alGet, alSet, List.filter_cons, List.find?, h]

theorem reSearchColumn_empty : reSearchColumn "" = Option.none := by decide

@[simp] theorem tag_client_query_id_captured (q : Option String) (ctx : Ctx) :
    (tag_client_query_id q ctx).captured = ctx.captured := by
  cases q <;> rfl

@[simp] theorem tag_client_query_id_dispatched (q : Option String) (ctx : Ctx) :
    (tag_client_query_id q ctx).dispatched = ctx.dispatched := by
  cases q <;> rfl

theorem completeIsFalse_eq_true (o : Option JVal) :
    completeIsFalse o = true ↔ o = Option.some (JVal.bool false) := by
  cases o with
  | none => simp [completeIsFalse]
  | some v =>
    cases v with
    | null => simp [completeIsFalse]
    | bool b => cases b <;> simp [completeIsFalse]
    | num n => simp [completeIsFalse]
    | str s => simp [completeIsFalse]
    | list xs => simp [completeIsFalse]
    | dict kvs => simp [completeIsFalse]

theorem statusCond_dict (d : List (String × JVal)) :
    (truthy (JVal.dict d) && completeIsFalse (jget (JVal.dict d) "complete")) = true ↔
      d ≠ [] ∧ mget d "complete" = Option.some (JVal.bool false) := by
  simp [Bool.and_eq_true, truthy, jget, completeIsFalse_eq_true, List.isEmpty_iff]

theorem responseStatus_202_iff (m : List (String × JVal))
    (hdict : ∀ qs, mget m "query_status" = Option.some qs →
      qs = JVal.null ∨ ∃ d, qs = JVal.dict d) :
    responseStatus m = 202 ↔
      ∃ d, mget m "query_status" = Option.some (JVal.dict d) ∧ d ≠ [] ∧
        mget d "complete" = Option.some (JVal.bool false) := by
  cases hm : mget m "query_status" with
  | none => simp [responseStatus, hm]
  | some qs =>
    rcases hdict qs hm with h | ⟨d, h⟩
    · subst h
      simp [responseStatus, hm, truthy]
    · subst h
      by_cases hc : (truthy (JVal.dict d) && completeIsFalse (jget (JVal.dict d) "complete")) = true
      · have h202 : responseStatus m = 202 := by simp [responseStatus, hm, hc]
        rw [h202]
        have hcd := (statusCond_dict d).mp hc
        exact ⟨fun _ => ⟨d, rfl, hcd.1, hcd.2⟩, fun _ => rfl⟩
      · have h200 : responseStatus m = 200 := by simp [responseStatus, hm, hc]
        rw [h200]
        constructor
        · intro h200'
          exact absurd h200' (by decide)
        · rintro ⟨d2, h1, h2, h3⟩
          injection h1 with h1
          injection h1 with h1
          subst h1
          exact absurd ((statusCond_dict d).mpr ⟨h2, h3⟩) hc

/-- C1: `check_team_api_queries_concurrency` returns a present cache entry
without consulting the subscription collaborator; on a miss with a resolvable
tenant it computes the value via the collaborator, caches it and returns it,
after which a repeat call is served from the cache with zero collaborator
calls; with an unresolvable tenant it returns false without writing to the
cache, so the check is recomputed on every call. -/
theorem C1_feature_check_caching (teamId : Nat) (team : Option Team) (c : List (String × Bool)) :
    (∀ v, alGet c (concurrencyCacheKey teamId) = Option.some v →
      check_team_api_queries_concurrency teamId team c = (v, c, 0)) ∧
    (∀ t, alGet c (concurrencyCacheKey teamId) = Option.none → team = Option.some t →
      check_team_api_queries_concurrency teamId team c =
        (t.isFeatureAvailable API_QUERIES_CONCURRENCY,
          alSet c (concurrencyCacheKey teamId) (t.isFeatureAvailable API_QUERIES_CONCURRENCY),
          1) ∧
      check_team_api_queries_concurrency teamId team
          (alSet c (concurrencyCacheKey teamId) (t.isFeatureAvailable API_QUERIES_CONCURRENCY)) =
        (t.isFeatureAvailable API_QUERIES_CONCURRENCY,
          alSet c (concurrencyCacheKey teamId) (t.isFeatureAvailable API_QUERIES_CONCURRENCY),
          0)) ∧
    (alGet c (concurrencyCacheKey teamId) = Option.none → team = Option.none →
      check_team_api_queries_concurrency teamId team c = (false, c, 0)) := by
  refine ⟨?_, ?_, ?_⟩
  · intro v hv
    simp [check_team_api_queries_concurrency, hv]
  · intro t hnone hteam
    subst hteam
    refine ⟨by simp [check_team_api_queries_concurrency, hnone], ?_⟩
    simp [check_team_api_queries_concurrency, alGet_alSet]
  · intro hnone hteam
    subst hteam
    simp [check_team_api_queries_concurrency, hnone]

/-- Witness for C1: a cache miss with a resolvable tenant computes via the
collaborator exactly once and caches the value. -/
theorem C1_witness :
    check_team_api_queries_concurrency 1 (Option.some teamYes) [] =
      (true, alSet [] (concurrencyCacheKey 1) true, 1) :=
  ((C1_feature_check_caching 1 (Option.some teamYes) []).2.1 teamYes rfl rfl).1

/-- C2: in the final catch-all, an engine failure whose `message` attribute
matches the column regex becomes a `ValidationError` whose message is the
matched text followed by the beta-support clarifying suffix, with no report to
the exception-tracking collaborator; any other failure is reported to the
collaborator and re-raised unchanged. -/
theorem C2_catch_all_column_pattern (inp : RunInput) (ctx : Ctx) (pr : ProcessedRequest)
    (s : String) (mAttr : Option String)
    (hq : inp.isHogQLQuery = true)
    (hpr : inp.processRequest = Except.ok pr)
    (hasync : pr.asyncMode = false)
    (hd : inp.dispatch = Except.error (Exc.other s mAttr)) :
    (∀ m g, mAttr = Option.some m → reSearchColumn m = Option.some g →
      (run inp ctx).1 = Outcome.raised (Exc.validationError (g ++ betaSuffix) Option.none) ∧
      ((run inp ctx).2).captured = ctx.captured) ∧
    ((∀ m, mAttr = Option.some m → reSearchColumn m = Option.none) →
      (run inp ctx).1 = Outcome.raised (Exc.other s mAttr) ∧
      ((run inp ctx).2).captured = ctx.captured ++ [Exc.other s mAttr]) := by
  constructor
  · intro m g hm hg
    subst hm
    have hne : (m != "") = true := by
      rcases eq_or_ne m "" with h | h
      · subst h
        rw [reSearchColumn_empty] at hg
        cases hg
      · simp [h]
    simp [run, runTry, hq, hpr, hasync, hd, handleExc, handle_column_ch_error, Exc.messageAttr,
      hne, hg]
  · intro hnone
    have hcol : handle_column_ch_error (Exc.other s mAttr) = Option.none := by
      cases mAttr with
      | none => rfl
      | some m =>
        by_cases h : m = ""
        · subst h
          simp [handle_column_ch_error, Exc.messageAttr]
        · simp [handle_column_ch_error, Exc.messageAttr, h, hnone m rfl]
    simp [run, runTry, hq, hpr, hasync, hd, handleExc, hcol]

/-- Witness for C2: a column-pattern message yields the suffixed
`ValidationError`. -/
theorem C2_witness :
    (run inpC2 ctx0).1 =
      Outcome.raised (Exc.validationError (colMsg ++ betaSuffix) Option.none) :=
  ((C2_catch_all_column_pattern inpC2 ctx0 prSync "boom" (Option.some colMsg)
      rfl rfl rfl rfl).1 colMsg colMsg rfl (by decide)).1

/-- C3: a successfully dispatched result is returned verbatim as the body, with
status 202 exactly when it holds a truthy `query_status` sub-mapping whose
`complete` flag is exactly `False`, and status 200 in every other case. -/
theorem C3_response_shaping (inp : RunInput) (ctx : Ctx) (pr : ProcessedRequest) (r : PyResult)
    (hq : inp.isHogQLQuery = true)
    (hpr : inp.processRequest = Except.ok pr)
    (hasync : pr.asyncMode = false)
    (hd : inp.dispatch = Except.ok r)
    (hdict : ∀ qs, mget (normalizeResult r) "query_status" = Option.some qs →
      qs = JVal.null ∨ ∃ d, qs = JVal.dict d) :
    (run inp ctx).1 = Outcome.response (normalizeResult r) (responseStatus (normalizeResult r)) ∧
    (responseStatus (normalizeResult r) = 202 ∨ responseStatus (normalizeResult r) = 200) ∧
    (responseStatus (normalizeResult r) = 202 ↔
      ∃ d, mget (normalizeResult r) "query_status" = Option.some (JVal.dict d) ∧ d ≠ [] ∧
        mget d "complete" = Option.some (JVal.bool false)) := by
  refine ⟨by simp [run, runTry, hq, hpr, hasync, hd], ?_,
    responseStatus_202_iff (normalizeResult r) hdict⟩
  unfold responseStatus
  cases mget (normalizeResult r) "query_status" with
  | none => right; rfl
  | some qs =>
    by_cases hcond : (truthy qs && completeIsFalse (jget qs "complete")) = true
    · left
      simp [hcond]
    · right
      simp [hcond]

/-- Witness for C3: an incomplete `query_status` yields status 202 with the
mapping returned verbatim. -/
theorem C3_witness :
    (run inpC3 ctx0).1 = Outcome.response mIncomplete (responseStatus mIncomplete) :=
  (C3_response_shaping inpC3 ctx0 prSync (PyResult.mapping mIncomplete) rfl rfl rfl rfl
    (by
      intro qs h
      rw [show mget (normalizeResult (PyResult.mapping mIncomplete)) "query_status" =
          Option.some (JVal.dict [("complete", JVal.bool false)]) from rfl] at h
      injection h with h
      exact Or.inr ⟨[("complete", JVal.bool false)], h.symm⟩)).1

/-- C4: when the resolved execution mode is one of `ASYNC_MODES`, `run` raises
`ValidationError("only sync modes are supported (refresh param)")` and
`process_query_model` is never invoked for the request. -/
theorem C4_async_mode_rejected (inp : RunInput) (ctx : Ctx) (pr : ProcessedRequest)
    (hq : inp.isHogQLQuery = true)
    (hpr : inp.processRequest = Except.ok pr)
    (hasync : pr.asyncMode = true) :
    (run inp ctx).1 =
      Outcome.raised (Exc.validationError "only sync modes are supported (refresh param)"
        Option.none) ∧
    ((run inp ctx).2).dispatched = ctx.dispatched := by
  simp [run, runTry, hq, hpr, hasync, handleExc, handle_column_ch_error, Exc.messageAttr]

/-- Witness for C4: an asynchronous mode is rejected without dispatching. -/
theorem C4_witness :
    (run inpC4 ctx0).1 =
      Outcome.raised (Exc.validationError "only sync modes are supported (refresh param)"
        Option.none) :=
  (C4_async_mode_rejected inpC4 ctx0 ⟨Option.none, true⟩ rfl rfl rfl).1

/-- C5: when the concurrency limiter raises exhaustion, `run` raises a
`Throttled` failure carrying exactly the limiter's message, never a
`ValidationError` or a re-raised unhandled failure, and the exception-tracking
collaborator is not invoked. -/
theorem C5_concurrency_throttled (inp : RunInput) (ctx : Ctx) (pr : ProcessedRequest)
    (msg : String)
    (hq : inp.isHogQLQuery = true)
    (hpr : inp.processRequest = Except.ok pr)
    (hasync : pr.asyncMode = false)
    (hd : inp.dispatch = Except.error (Exc.concurrencyLimitExceeded msg)) :
    (run inp ctx).1 = Outcome.raised (Exc.throttled msg) ∧
    ((run inp ctx).2).captured = ctx.captured := by
  simp [run, runTry, hq, hpr, hasync, hd, handleExc]

/-- Witness for C5: limiter exhaustion becomes a `Throttled` failure with the
exact limiter message. -/
theorem C5_witness :
    (run inpC5 ctx0).1 = Outcome.raised (Exc.throttled "team X exceeded limit") :=
  (C5_concurrency_throttled inpC5 ctx0 prSync "team X exceeded limit" rfl rfl rfl rfl).1

/-- C6: engine semantic errors, script-runtime errors and engine-translation
errors become a `ValidationError` carrying the message and the `code_name`
when the error exposes one; a resolution error becomes a `ValidationError`
carrying the message with no code. -/
theorem C6_engine_errors_validation (inp : RunInput) (ctx : Ctx) (pr : ProcessedRequest)
    (msg : String) (code : Option String)
    (hq : inp.isHogQLQuery = true)
    (hpr : inp.processRequest = Except.ok pr)
    (hasync : pr.asyncMode = false) :
    (inp.dispatch = Except.error (Exc.exposedHogQLError msg code) →
      (run inp ctx).1 = Outcome.raised (Exc.validationError msg code)) ∧
    (inp.dispatch = Except.error (Exc.exposedCHQueryError msg code) →
      (run inp ctx).1 = Outcome.raised (Exc.validationError msg code)) ∧
    (inp.dispatch = Except.error (Exc.hogVMException msg code) →
      (run inp ctx).1 = Outcome.raised (Exc.validationError msg code)) ∧
    (inp.dispatch = Except.error (Exc.resolutionError msg) →
      (run inp ctx).1 = Outcome.raised (Exc.validationError msg Option.none)) := by
  refine ⟨fun hd => ?_, fun hd => ?_, fun hd => ?_, fun hd => ?_⟩ <;>
    simp [run, runTry, hq, hpr, hasync, hd, handleExc]

/-- Witness for C6: an engine semantic error with a code becomes a
`ValidationError` carrying both. -/
theorem C6_witness :
    (run inpC6 ctx0).1 =
      Outcome.raised (Exc.validationError "bad hogql" (Option.some "syntax")) :=
  (C6_engine_errors_validation inpC6 ctx0 prSync "bad hogql" (Option.some "syntax")
    rfl rfl rfl).1 rfl

/-- C7 counterexample: a request carrying the empty string as
`client_query_id` modifies the ambient tag context, refuting the claim that
an empty id leaves the context unmodified. -/
theorem C7_counterexample :
    ((run inpC7 ctx0).2).queryTags ≠ ctx0.queryTags := by decide

/-- C7 amended: a `client_query_id` that is present — any string, the empty
string included — is attached to the ambient tag context and is visible in it
during and after dispatch; only an absent (`None`) id leaves the context
unmodified. -/
theorem C7_amended_tagging (inp : RunInput) (ctx : Ctx) (pr : ProcessedRequest) (r : PyResult)
    (hq : inp.isHogQLQuery = true)
    (hpr : inp.processRequest = Except.ok pr)
    (hasync : pr.asyncMode = false)
    (hd : inp.dispatch = Except.ok r) :
    (∀ s, pr.clientQueryId = Option.some s →
      ((run inp ctx).2).queryTags = alSet ctx.queryTags "client_query_id" s ∧
      alGet ((run inp ctx).2).queryTags "client_query_id" = Option.some s) ∧
    (pr.clientQueryId = Option.none → ((run inp ctx).2).queryTags = ctx.queryTags) := by
  constructor
  · intro s hs
    have h1 : ((run inp ctx).2).queryTags = alSet ctx.queryTags "client_query_id" s := by
      simp [run, runTry, hq, hpr, hasync, hd, tag_client_query_id, hs]
    exact ⟨h1, by rw [h1]; exact alGet_alSet _ _ _⟩
  · intro hs
    simp [run, runTry, hq, hpr, hasync, hd, tag_client_query_id, hs]

/-- Witness for the amended C7: the empty string is attached to the ambient
context. -/
theorem C7_witness :
    ((run inpC7 ctx0).2).queryTags = alSet ctx0.queryTags "client_query_id" "" :=
  ((C7_amended_tagging inpC7 ctx0 ⟨Option.some "", false⟩ (PyResult.mapping [])
      rfl rfl rfl rfl).1 "" rfl).1

/-- C8: a request whose query is not a `HogQLQuery` raises
`ValidationError("This endpoint only supports HogQLQuery")` with the ambient
state entirely unchanged: no tagging, no report, no dispatch. -/
theorem C8_unsupported_variant (inp : RunInput) (ctx : Ctx)
    (hq : inp.isHogQLQuery = false) :
    run inp ctx =
      (Outcome.raised (Exc.validationError "This endpoint only supports HogQLQuery" Option.none),
        ctx) := by
  simp [run, hq]

/-- Witness for C8: a non-HogQL query is rejected with untouched state. -/
theorem C8_witness :
    run inpC8 ctx0 =
      (Outcome.raised (Exc.validationError "This endpoint only supports HogQLQuery" Option.none),
        ctx0) :=
  C8_unsupported_variant inpC8 ctx0 rfl

/-- C9: an exception reaching the final catch-all whose `message` attribute is
absent or falsy is reported and re-raised unchanged, even when its string form
matches the column pattern. -/
theorem C9_falsy_message_attribute (inp : RunInput) (ctx : Ctx) (pr : ProcessedRequest)
    (s : String) (mAttr : Option String)
    (hq : inp.isHogQLQuery = true)
    (hpr : inp.processRequest = Except.ok pr)
    (hasync : pr.asyncMode = false)
    (hd : inp.dispatch = Except.error (Exc.other s mAttr))
    (hfalsy : mAttr = Option.none ∨ mAttr = Option.some "") :
    (run inp ctx).1 = Outcome.raised (Exc.other s mAttr) ∧
    ((run inp ctx).2).captured = ctx.captured ++ [Exc.other s mAttr] := by
  have hcol : handle_column_ch_error (Exc.other s mAttr) = Option.none := by
    rcases hfalsy with h | h <;> subst h <;> simp [handle_column_ch_error, Exc.messageAttr]
  simp [run, runTry, hq, hpr, hasync, hd, handleExc, hcol]

/-- Witness for C9: an exception whose string form matches the column pattern
but whose `message` attribute is absent is reported and re-raised unchanged. -/
theorem C9_witness :
    (run inpC9 ctx0).1 = Outcome.raised (Exc.other colMsg Option.none) :=
  (C9_falsy_message_attribute inpC9 ctx0 prSync colMsg Option.none rfl rfl rfl rfl
    (Or.inl rfl)).1

/-- C10: with a nonempty `client_query_id` and an asynchronous mode, the id is
attached to the ambient tag context before the async-mode check, so the
context is modified even though the request is rejected with a
`ValidationError` and never dispatched. -/
theorem C10_tag_precedes_async_check (inp : RunInput) (ctx : Ctx) (pr : ProcessedRequest)
    (s : String)
    (hq : inp.isHogQLQuery = true)
    (hpr : inp.processRequest = Except.ok pr)
    (hs : pr.clientQueryId = Option.some s)
    (_hne : s ≠ "")
    (hasync : pr.asyncMode = true) :
    (run inp ctx).1 =
      Outcome.raised (Exc.validationError "only sync modes are supported (refresh param)"
        Option.none) ∧
    ((run inp ctx).2).queryTags = alSet ctx.queryTags "client_query_id" s ∧
    ((run inp ctx).2).dispatched = ctx.dispatched := by
  simp [run, runTry, hq, hpr, hasync, hs, tag_client_query_id, handleExc,
    handle_column_ch_error, Exc.messageAttr]

/-- Witness for C10: the id "abc123" is tagged although the async request is
rejected. -/
theorem C10_witness :
    ((run inpC10 ctx0).2).queryTags = alSet ctx0.queryTags "client_query_id" "abc123" :=
  (C10_tag_precedes_async_check inpC10 ctx0 ⟨Option.some "abc123", true⟩ "abc123"
    rfl rfl rfl (by decide) rfl).2.1
